import Mathlib

/-!
A verification development for the cosmic-ext-applet-sysinfo sampling core
(`src/applet.rs`, `src/config.rs`).

Modelling conventions:
* Machine integers (`u64`, `u32`) are `Nat`; where a Rust arithmetic
  operation can overflow a `u64`, the result is reduced modulo `2 ^ 64`
  (`u64Mod`), the release-mode wrap-around semantics. Division by zero,
  which panics in Rust in every build mode, is modelled by returning
  `none` from the whole computation.
* `f32`/`f64` quantities that the code only stores and displays
  (CPU usage, temperatures, the two speed fields) are modelled as `ℚ`;
  the `as f64` conversion and float division by `1 000 000.0` are
  modelled as exact rational division.
* The ambient OS facilities read by the `sysinfo`/`nvml` wrappers and by
  `std::fs` / `std::process` are an explicit per-cycle `Env` value:
  the current memory/swap/CPU readings, the component (sensor) list, the
  per-interface network counters, the `/sys/class/net` directory listing
  (`none` when the directory cannot be read), the captured output of the
  `upsc` invocation (`none` when the command fails to run), and the
  NVML device readings (`none` when `device_by_index(0)` fails).
-/

namespace Applet

/-- `2 ^ 64`: the modulus of Rust `u64` arithmetic. -/
def u64Mod : Nat := 2 ^ 64

/-! ### Small string helpers (Rust `str` operations, kernel-reducible) -/

/-- Is the first list a prefix of the second (`==` on `Char`)? -/
def listPrefixOf : List Char → List Char → Bool
  | [], _ => true
  | _ :: _, [] => false
  | a :: as, b :: bs => a == b && listPrefixOf as bs

/-- Is `needle` a contiguous sublist of the second list? -/
def listInfixOf (needle : List Char) : List Char → Bool
  | [] => listPrefixOf needle []
  | hay@(_ :: rest) => listPrefixOf needle hay || listInfixOf needle rest

/-- Rust `str::contains(needle)`: substring containment. -/
def strContains (hay needle : String) : Bool :=
  listInfixOf needle.data hay.data

/-- Rust `str::to_lowercase()` (the labels involved are ASCII, so
per-`Char` lowercasing is exact). -/
def to_lowercase (s : String) : String :=
  String.mk (s.data.map Char.toLower)

/-- Rust `str::split(sep)`: the (non-empty) list of fields between
occurrences of `sep`; `""` splits to `[""]`, `"a:"` to `["a", ""]`. -/
def splitOnChar (sep : Char) : List Char → List (List Char)
  | [] => [[]]
  | c :: cs =>
    let rest := splitOnChar sep cs
    if c == sep then [] :: rest
    else
      match rest with
      | r :: rs => (c :: r) :: rs
      | [] => [[c]]

/-- Drop a trailing empty field (Rust `str::lines` yields no final empty
line for input ending in a newline). -/
def dropLastEmpty (parts : List (List Char)) : List (List Char) :=
  match parts.getLast? with
  | some [] => parts.dropLast
  | _ => parts

/-- Strip one trailing `'\r'` (Rust `str::lines` handles `\r\n`). -/
def stripCarriage (l : List Char) : List Char :=
  match l.getLast? with
  | some '\r' => l.dropLast
  | _ => l

/-- Rust `str::lines()`. -/
def rustLines (s : String) : List String :=
  (dropLastEmpty (splitOnChar '\n' s.data)).map (fun l => String.mk (stripCarriage l))

/-- Rust whitespace test for `str::trim` (ASCII part). -/
def isTrimChar (c : Char) : Bool :=
  c == ' ' || c == '\t' || c == '\n' || c == '\r'

/-- Rust `str::trim()`: strip leading and trailing whitespace. -/
def rustTrim (s : String) : String :=
  String.mk (((s.data.dropWhile isTrimChar).reverse.dropWhile isTrimChar).reverse)

/-! ### Data model (`config.rs` and the fields of `struct SysInfo`) -/

/-- `SysInfoConfig` from `config.rs`. -/
structure SysInfoConfig where
  include_interfaces : Option (List String)
  exclude_interfaces : Option (List String)
  include_swap_in_ram : Bool
  deriving DecidableEq, Repr

/-- One entry of the `/sys/class/net` directory listing: its file name and
whether `/sys/class/net/<name>/device` exists. -/
structure NetDirEntry where
  name : String
  hasDevice : Bool
  deriving DecidableEq, Repr

/-- Per-interface counters as returned by `sysinfo::NetworkData` for the
current refresh: `transmitted()` and `received()` in bytes (`u64`). -/
structure NetworkData where
  transmitted : Nat
  received : Nat
  deriving DecidableEq, Repr

/-- One `sysinfo::Component`: its `label()` and `temperature()`. -/
structure Component where
  label : String
  temperature : Option ℚ
  deriving DecidableEq, Repr

/-- The memory/swap/CPU readings the OS would report on this cycle
(what a `sysinfo` refresh would store). -/
structure MemReadings where
  used_memory : Nat
  total_memory : Nat
  used_swap : Nat
  total_swap : Nat
  deriving DecidableEq, Repr

/-- The captured result of a successfully spawned `upsc eaton@localhost`:
its exit status and decoded stdout.  The Rust code never reads the
status field. -/
structure CmdOutput where
  status : Int
  stdout : String
  deriving DecidableEq, Repr

/-- The NVML device obtained from `device_by_index(0)`: the results of
`utilization_rates().ok().map(|u| u.gpu)`, `temperature(..).ok()` and
`memory_info()` (`(used, total)` in bytes). -/
structure GpuDevice where
  utilization : Option Nat
  temperature : Option Nat
  memInfo : Option (Nat × Nat)
  deriving DecidableEq, Repr

/-- The ambient facts one sampling cycle can observe. -/
structure Env where
  now : Nat
  mem : MemReadings
  cpuUsage : ℚ
  components : List Component
  networks : List (String × NetworkData)
  netDir : Option (List NetDirEntry)
  upsOutput : Option CmdOutput
  gpu : Option GpuDevice
  nvmlInitOk : Bool

/-- `sysinfo::MemoryRefreshKind`: which memory counters a refresh reads. -/
structure MemoryRefreshKind where
  ram : Bool
  swap : Bool
  deriving DecidableEq, Repr

/-- `sysinfo::CpuRefreshKind`: whether a refresh reads CPU usage. -/
structure CpuRefreshKind where
  cpu_usage : Bool
  deriving DecidableEq, Repr

/-- `sysinfo::RefreshKind` restricted to what the applet requests. -/
structure RefreshKind where
  memory : MemoryRefreshKind
  cpu : CpuRefreshKind
  deriving DecidableEq, Repr

/-- The slice of `sysinfo::System` the applet reads: the last-refreshed
counters.  A counter that was never refreshed reads as `0`. -/
structure System where
  used_memory : Nat
  total_memory : Nat
  used_swap : Nat
  total_swap : Nat
  global_cpu_usage : ℚ

/-- A `System` with nothing refreshed yet: every getter reads `0`. -/
def System.unrefreshed : System :=
  { used_memory := 0, total_memory := 0, used_swap := 0, total_swap := 0
    global_cpu_usage := 0 }

/-- `System::refresh_specifics(kind)`: overwrite exactly the counters the
`RefreshKind` requests with the current OS readings, keep the rest. -/
def refresh_specifics (kind : RefreshKind) (env : Env) (s : System) : System :=
  { used_memory := if kind.memory.ram then env.mem.used_memory else s.used_memory
    total_memory := if kind.memory.ram then env.mem.total_memory else s.total_memory
    used_swap := if kind.memory.swap then env.mem.used_swap else s.used_swap
    total_swap := if kind.memory.swap then env.mem.total_swap else s.total_swap
    global_cpu_usage := if kind.cpu.cpu_usage then env.cpuUsage else s.global_cpu_usage }

/-- `System::new_with_specifics(kind)`. -/
def System.new_with_specifics (kind : RefreshKind) (env : Env) : System :=
  refresh_specifics kind env System.unrefreshed

/-- The sampling state of `struct SysInfo` (UI handles `core`/`popup`
omitted; the `config_handler : Option<Config>` is modelled by whether it
is present). -/
structure SysInfo where
  config : SysInfoConfig
  config_handler : Bool
  system : System
  cpu_usage : ℚ
  cpu_temp : Option ℚ
  ram_usage : Nat
  download_speed : ℚ
  upload_speed : ℚ
  last_scan : Nat
  physical_interfaces : List String
  ups_temp : String
  nvml : Bool
  gpu_load : Option Nat
  gpu_temp : Option Nat
  gpu_vram_used : Option Nat
  gpu_vram_total : Option Nat

/-! ### Operations (`applet.rs`) -/

/-- `SysInfo::get_physical_interfaces`: enumerate `/sys/class/net`
(an unreadable directory contributes nothing), keep entries with a
`device` marker, then `retain` by the include list and then by the
exclude list. -/
def get_physical_interfaces (netDir : Option (List NetDirEntry))
    (config : SysInfoConfig) : List String :=
  let interfaces : List String :=
    match netDir with
    | some entries => (entries.filter (fun e => e.hasDevice)).map (fun e => e.name)
    | none => []
  let interfaces : List String :=
    match config.include_interfaces with
    | some included_interfaces => interfaces.filter (fun i => included_interfaces.contains i)
    | none => interfaces
  match config.exclude_interfaces with
  | some excluded_interface => interfaces.filter (fun i => !excluded_interface.contains i)
  | none => interfaces

/-- The interface rescan at the top of `update_sysinfo_data`:
`if self.last_scan.elapsed() > Duration::from_secs(10) { self.rescan_physical_interfaces() }`,
where `rescan_physical_interfaces` replaces the catalog and resets
`last_scan`. -/
def rescanIfStale (env : Env) (s : SysInfo) : SysInfo :=
  if env.now - s.last_scan > 10 then
    { s with physical_interfaces := get_physical_interfaces env.netDir s.config
             last_scan := env.now }
  else s

/-- The `self.ram_usage` computation of `update_sysinfo_data`:
`((used + used_swap) * 100) / (total + total_swap)` when
`include_swap_in_ram`, else `(used * 100) / total`, in `u64`
arithmetic.  Addition and multiplication wrap modulo `2 ^ 64`;
a zero divisor is the Rust division-by-zero panic, modelled as `none`. -/
def ramUsageCalc (include_swap_in_ram : Bool)
    (used_memory total_memory used_swap total_swap : Nat) : Option Nat :=
  if include_swap_in_ram then
    let den := (total_memory + total_swap) % u64Mod
    if den = 0 then none
    else some ((((used_memory + used_swap) % u64Mod) * 100 % u64Mod) / den)
  else
    if total_memory = 0 then none
    else some ((used_memory * 100 % u64Mod) / total_memory)

/-- The sensor predicate of `update_sysinfo_data`: the lowercased label
contains `"k10temp"`, `"coretemp"`, `"cpu"` or `"tctl"`. -/
def cpuSensorMatch (label : String) : Bool :=
  let l := to_lowercase label
  strContains l "k10temp" || strContains l "coretemp" || strContains l "cpu"
    || strContains l "tctl"

/-- The `self.cpu_temp` computation: the temperature of the first
component whose label matches, `none` when no component matches
(or the matching component reports no temperature). -/
def cpuTempFrom (components : List Component) : Option ℚ :=
  (components.find? (fun c => cpuSensorMatch c.label)).bind (fun c => c.temperature)

/-- The network loop of `update_sysinfo_data`: starting from
`upload = 0, download = 0`, add `transmitted()`/`received()` of every
interface present in `self.physical_interfaces` (`u64` additions wrap). -/
def sumNetworkBytes (physical_interfaces : List String)
    (networks : List (String × NetworkData)) : Nat × Nat :=
  networks.foldl
    (fun acc p =>
      if physical_interfaces.contains p.1 then
        ((acc.1 + p.2.transmitted) % u64Mod, (acc.2 + p.2.received) % u64Mod)
      else acc)
    (0, 0)

/-- `get_ups_temp`: `none` input models `Command::output()` returning
`Err` (the process could not be spawned).  On `Ok`, scan stdout lines
for the first containing `"ups.temperature"` and return
`line.split(':').nth(1).unwrap_or("N/A").trim()`; fall through to
`"N/A"`.  The exit status of the command is never consulted. -/
def get_ups_temp (output : Option CmdOutput) : String :=
  match output with
  | some out =>
    match (rustLines out.stdout).find? (fun line => strContains line "ups.temperature") with
    | some line =>
      match (splitOnChar ':' line.data).get? 1 with
      | some v => rustTrim (String.mk v)
      | none => rustTrim "N/A"
    | none => "N/A"
  | none => "N/A"

/-- The `RefreshKind` requested on every cycle by `update_sysinfo_data`:
`RefreshKind::nothing().with_memory(MemoryRefreshKind::nothing().with_ram()).with_cpu(CpuRefreshKind::nothing().with_cpu_usage())`
— RAM counters and CPU usage only, no swap. -/
def updateRefreshKind : RefreshKind :=
  { memory := { ram := true, swap := false }, cpu := { cpu_usage := true } }

/-- The GPU tail of `update_sysinfo_data`
(`if let Some(ref nvml) = self.nvml { if let Ok(device) = nvml.device_by_index(0) { ... } }`):
the next `(gpu_load, gpu_temp, gpu_vram_used, gpu_vram_total)`.  The
fields are touched only while an NVML handle exists and device 0
responds; VRAM is converted to MB by dividing by `1024 * 1024`. -/
def gpuFieldsNext (nvml : Bool) (gpu : Option GpuDevice)
    (gpu_load gpu_temp gpu_vram_used gpu_vram_total : Option Nat) :
    Option Nat × Option Nat × Option Nat × Option Nat :=
  if nvml then
    match gpu with
    | some device =>
      (device.utilization, device.temperature,
        match device.memInfo with
        | some mi => (some (mi.1 / (1024 * 1024)), some (mi.2 / (1024 * 1024)))
        | none => (gpu_vram_used, gpu_vram_total))
    | none => (gpu_load, gpu_temp, gpu_vram_used, gpu_vram_total)
  else (gpu_load, gpu_temp, gpu_vram_used, gpu_vram_total)

/-- `SysInfo::update_sysinfo_data`, one sampling cycle: rescan the
catalog when stale, refresh RAM and CPU readings, compute
`cpu_usage`/`ram_usage` (`none` = the division-by-zero panic), refresh
components and pick the CPU temperature, sum network counters over the
catalog and divide by `1 000 000`, run `upsc`, and update the GPU
fields only while an NVML handle exists. -/
def update_sysinfo_data (env : Env) (s : SysInfo) : Option SysInfo :=
  let s := rescanIfStale env s
  let system := refresh_specifics updateRefreshKind env s.system
  (ramUsageCalc s.config.include_swap_in_ram
      system.used_memory system.total_memory system.used_swap system.total_swap).map
    fun ram =>
    let sums := sumNetworkBytes s.physical_interfaces env.networks
    let gpuFields := gpuFieldsNext s.nvml env.gpu
      s.gpu_load s.gpu_temp s.gpu_vram_used s.gpu_vram_total
    { s with
      system := system
      cpu_usage := system.global_cpu_usage
      ram_usage := ram
      cpu_temp := cpuTempFrom env.components
      upload_speed := (sums.1 : ℚ) / 1000000
      download_speed := (sums.2 : ℚ) / 1000000
      ups_temp := get_ups_temp env.upsOutput
      gpu_load := gpuFields.1
      gpu_temp := gpuFields.2.1
      gpu_vram_used := gpuFields.2.2.1
      gpu_vram_total := gpuFields.2.2.2 }

/-- The `memory_config` of `SysInfo::init`: RAM plus swap when
`include_swap_in_ram` was set at startup, RAM only otherwise. -/
def init_memory_config (include_swap_in_ram : Bool) : MemoryRefreshKind :=
  if include_swap_in_ram then { ram := true, swap := true }
  else { ram := true, swap := false }

/-- `SysInfo::init`: build the initial state.  `env.nvmlInitOk` is
whether `Nvml::init()` succeeded; the applet never calls it again. -/
def SysInfo.init (config : SysInfoConfig) (config_handler : Bool) (env : Env) : SysInfo :=
  { config := config
    config_handler := config_handler
    system := System.new_with_specifics
      { memory := init_memory_config config.include_swap_in_ram
        cpu := { cpu_usage := true } } env
    cpu_usage := 0
    cpu_temp := none
    ram_usage := 0
    download_speed := 0
    upload_speed := 0
    last_scan := env.now
    physical_interfaces := get_physical_interfaces env.netDir config
    ups_temp := "..."
    nvml := env.nvmlInitOk
    gpu_load := none
    gpu_temp := none
    gpu_vram_used := none
    gpu_vram_total := none }

/-- The messages that touch the sampling state (`ToggleWindow` and
`PopupClosed` only move the popup handle, which is not modelled). -/
inductive Message where
  | tick (env : Env)
  | toggleIncludeSwapWithRam (value : Bool)

/-- `SysInfo::update` on the modelled messages.  `Tick` runs one
sampling cycle.  For `ToggleIncludeSwapWithRam` the handler calls
`set_include_swap_in_ram` only when a config handler exists.
Modelled from the spec: `set_include_swap_in_ram` is generated by the
external configuration store derive (not in this repository); per the
spec's setter contract it updates the in-memory field and hands
persistence to the collaborator. -/
def SysInfo.update : Message → SysInfo → Option SysInfo
  | .tick env, s => update_sysinfo_data env s
  | .toggleIncludeSwapWithRam value, s =>
    if s.config_handler then
      some { s with config := { s.config with include_swap_in_ram := value } }
    else some s

/-- Run a sequence of messages; a division-by-zero panic aborts the run. -/
def runMessages : List Message → SysInfo → Option SysInfo
  | [], s => some s
  | m :: ms, s => (SysInfo.update m s).bind (runMessages ms)

theorem rescan_config (env : Env) (s : SysInfo) : (rescanIfStale env s).config = s.config := by
  unfold rescanIfStale; split <;> rfl

theorem rescan_system (env : Env) (s : SysInfo) : (rescanIfStale env s).system = s.system := by
  unfold rescanIfStale; split <;> rfl

theorem rescan_nvml (env : Env) (s : SysInfo) : (rescanIfStale env s).nvml = s.nvml := by
  unfold rescanIfStale; split <;> rfl

theorem update_sysinfo_data_eq (env : Env) (s : SysInfo) :
    update_sysinfo_data env s =
      (ramUsageCalc (rescanIfStale env s).config.include_swap_in_ram
          env.mem.used_memory env.mem.total_memory
          (rescanIfStale env s).system.used_swap (rescanIfStale env s).system.total_swap).map
        fun ram =>
        { rescanIfStale env s with
          system :=
            { used_memory := env.mem.used_memory
              total_memory := env.mem.total_memory
              used_swap := (rescanIfStale env s).system.used_swap
              total_swap := (rescanIfStale env s).system.total_swap
              global_cpu_usage := env.cpuUsage }
          cpu_usage := env.cpuUsage
          ram_usage := ram
          cpu_temp := cpuTempFrom env.components
          upload_speed :=
            ((sumNetworkBytes (rescanIfStale env s).physical_interfaces env.networks).1 : ℚ) / 1000000
          download_speed :=
            ((sumNetworkBytes (rescanIfStale env s).physical_interfaces env.networks).2 : ℚ) / 1000000
          ups_temp := get_ups_temp env.upsOutput
          gpu_load := (gpuFieldsNext (rescanIfStale env s).nvml env.gpu
            (rescanIfStale env s).gpu_load (rescanIfStale env s).gpu_temp
            (rescanIfStale env s).gpu_vram_used (rescanIfStale env s).gpu_vram_total).1
          gpu_temp := (gpuFieldsNext (rescanIfStale env s).nvml env.gpu
            (rescanIfStale env s).gpu_load (rescanIfStale env s).gpu_temp
            (rescanIfStale env s).gpu_vram_used (rescanIfStale env s).gpu_vram_total).2.1
          gpu_vram_used := (gpuFieldsNext (rescanIfStale env s).nvml env.gpu
            (rescanIfStale env s).gpu_load (rescanIfStale env s).gpu_temp
            (rescanIfStale env s).gpu_vram_used (rescanIfStale env s).gpu_vram_total).2.2.1
          gpu_vram_total := (gpuFieldsNext (rescanIfStale env s).nvml env.gpu
            (rescanIfStale env s).gpu_load (rescanIfStale env s).gpu_temp
            (rescanIfStale env s).gpu_vram_used (rescanIfStale env s).gpu_vram_total).2.2.2 } := rfl


def catalogTransmitted (physical_interfaces : List String)
    (networks : List (String × NetworkData)) : Nat :=
  ((networks.filter (fun p => physical_interfaces.contains p.1)).map
    (fun p => p.2.transmitted)).sum

def catalogReceived (physical_interfaces : List String)
    (networks : List (String × NetworkData)) : Nat :=
  ((networks.filter (fun p => physical_interfaces.contains p.1)).map
    (fun p => p.2.received)).sum

theorem sumNetworkBytes_go (physical_interfaces : List String)
    (networks : List (String × NetworkData)) :
    ∀ a b : Nat,
      networks.foldl
        (fun acc p =>
          if physical_interfaces.contains p.1 then
            ((acc.1 + p.2.transmitted) % u64Mod, (acc.2 + p.2.received) % u64Mod)
          else acc)
        (a % u64Mod, b % u64Mod) =
      ((a + catalogTransmitted physical_interfaces networks) % u64Mod,
        (b + catalogReceived physical_interfaces networks) % u64Mod) := by
  induction networks with
  | nil =>
    intro a b
    simp [catalogTransmitted, catalogReceived]
  | cons p ps ih =>
    intro a b
    simp only [List.foldl_cons]
    by_cases h : physical_interfaces.contains p.1 = true
    · have hmem : p.1 ∈ physical_interfaces := by simpa using h
      rw [if_pos h]
      rw [Nat.mod_add_mod, Nat.mod_add_mod, ih (a + p.2.transmitted) (b + p.2.received)]
      simp [catalogTransmitted, catalogReceived, List.filter_cons, hmem, Nat.add_assoc]
    · have hmem : p.1 ∉ physical_interfaces := by simpa using h
      rw [if_neg h]
      rw [ih a b]
      simp [catalogTransmitted, catalogReceived, List.filter_cons, hmem]

theorem sumNetworkBytes_eq (physical_interfaces : List String)
    (networks : List (String × NetworkData)) :
    sumNetworkBytes physical_interfaces networks =
      (catalogTransmitted physical_interfaces networks % u64Mod,
        catalogReceived physical_interfaces networks % u64Mod) := by
  have h := sumNetworkBytes_go physical_interfaces networks 0 0
  simpa [sumNetworkBytes] using h


theorem update_tick_fields (env : Env) (s s' : SysInfo)
    (h : update_sysinfo_data env s = some s') :
    s'.config = s.config ∧ s'.config_handler = s.config_handler ∧ s'.nvml = s.nvml ∧
    s'.system.used_swap = s.system.used_swap ∧ s'.system.total_swap = s.system.total_swap := by
  rw [update_sysinfo_data_eq, Option.map_eq_some'] at h
  obtain ⟨ram, hcalc, hs'⟩ := h
  subst hs'
  dsimp only
  exact ⟨rescan_config env s, by unfold rescanIfStale; split <;> rfl, rescan_nvml env s,
    congrArg System.used_swap (rescan_system env s),
    congrArg System.total_swap (rescan_system env s)⟩

theorem update_message_fields (m : Message) (s s' : SysInfo)
    (h : SysInfo.update m s = some s') :
    s'.config_handler = s.config_handler ∧ s'.nvml = s.nvml ∧
    s'.system.used_swap = s.system.used_swap ∧ s'.system.total_swap = s.system.total_swap := by
  cases m with
  | tick env =>
    obtain ⟨_, h2, h3, h4, h5⟩ := update_tick_fields env s s' h
    exact ⟨h2, h3, h4, h5⟩
  | toggleIncludeSwapWithRam value =>
    by_cases hch : s.config_handler = true
    · simp only [SysInfo.update, hch, if_true, Option.some.injEq] at h
      subst h
      exact ⟨hch.symm, rfl, rfl, rfl⟩
    · simp only [SysInfo.update, if_neg hch, Option.some.injEq] at h
      subst h
      exact ⟨rfl, rfl, rfl, rfl⟩

theorem runMessages_fields : ∀ (msgs : List Message) (s s' : SysInfo),
    runMessages msgs s = some s' →
    s'.config_handler = s.config_handler ∧ s'.nvml = s.nvml ∧
    s'.system.used_swap = s.system.used_swap ∧ s'.system.total_swap = s.system.total_swap := by
  intro msgs
  induction msgs with
  | nil =>
    intro s s' h
    simp only [runMessages, Option.some.injEq] at h
    subst h
    exact ⟨rfl, rfl, rfl, rfl⟩
  | cons m ms ih =>
    intro s s' h
    simp only [runMessages] at h
    rw [Option.bind_eq_some] at h
    obtain ⟨s1, hm, hrest⟩ := h
    obtain ⟨a1, a2, a3, a4⟩ := update_message_fields m s s1 hm
    obtain ⟨b1, b2, b3, b4⟩ := ih s1 s' hrest
    exact ⟨b1.trans a1, b2.trans a2, b3.trans a3, b4.trans a4⟩


theorem gpuFieldsNext_false (gpu : Option GpuDevice) (a b c d : Option Nat) :
    gpuFieldsNext false gpu a b c d = (a, b, c, d) := rfl

theorem update_tick_gpu_quiet (env : Env) (s s' : SysInfo) (hn : s.nvml = false)
    (h : update_sysinfo_data env s = some s') :
    s'.gpu_load = s.gpu_load ∧ s'.gpu_temp = s.gpu_temp ∧
    s'.gpu_vram_used = s.gpu_vram_used ∧ s'.gpu_vram_total = s.gpu_vram_total := by
  rw [update_sysinfo_data_eq, Option.map_eq_some'] at h
  obtain ⟨ram, hcalc, hs'⟩ := h
  subst hs'
  dsimp only
  rw [rescan_nvml env s, hn, gpuFieldsNext_false]
  refine ⟨?_, ?_, ?_, ?_⟩ <;> { unfold rescanIfStale; split <;> rfl }

theorem update_message_gpu_quiet (m : Message) (s s' : SysInfo) (hn : s.nvml = false)
    (h : SysInfo.update m s = some s') :
    s'.gpu_load = s.gpu_load ∧ s'.gpu_temp = s.gpu_temp ∧
    s'.gpu_vram_used = s.gpu_vram_used ∧ s'.gpu_vram_total = s.gpu_vram_total := by
  cases m with
  | tick env => exact update_tick_gpu_quiet env s s' hn h
  | toggleIncludeSwapWithRam value =>
    by_cases hch : s.config_handler = true
    · simp only [SysInfo.update, hch, if_true, Option.some.injEq] at h
      subst h
      exact ⟨rfl, rfl, rfl, rfl⟩
    · simp only [SysInfo.update, if_neg hch, Option.some.injEq] at h
      subst h
      exact ⟨rfl, rfl, rfl, rfl⟩

theorem runMessages_gpu_quiet : ∀ (msgs : List Message) (s s' : SysInfo),
    s.nvml = false → runMessages msgs s = some s' →
    s'.gpu_load = s.gpu_load ∧ s'.gpu_temp = s.gpu_temp ∧
    s'.gpu_vram_used = s.gpu_vram_used ∧ s'.gpu_vram_total = s.gpu_vram_total := by
  intro msgs
  induction msgs with
  | nil =>
    intro s s' _ h
    simp only [runMessages, Option.some.injEq] at h
    subst h
    exact ⟨rfl, rfl, rfl, rfl⟩
  | cons m ms ih =>
    intro s s' hn h
    simp only [runMessages] at h
    rw [Option.bind_eq_some] at h
    obtain ⟨s1, hm, hrest⟩ := h
    have hn1 : s1.nvml = false := ((update_message_fields m s s1 hm).2.1).trans hn
    obtain ⟨a1, a2, a3, a4⟩ := update_message_gpu_quiet m s s1 hn hm
    obtain ⟨b1, b2, b3, b4⟩ := ih s1 s' hn1 hrest
    exact ⟨b1.trans a1, b2.trans a2, b3.trans a3, b4.trans a4⟩

/-- Replace the GPU observation inside a message's environment. -/
def setGpuEnv (f : Option GpuDevice → Option GpuDevice) : Message → Message
  | .tick env => .tick { env with gpu := f env.gpu }
  | .toggleIncludeSwapWithRam value => .toggleIncludeSwapWithRam value

theorem update_tick_gpu_env_irrelevant (env : Env) (g : Option GpuDevice) (s : SysInfo)
    (hn : s.nvml = false) :
    update_sysinfo_data { env with gpu := g } s = update_sysinfo_data env s := by
  rw [update_sysinfo_data_eq, update_sysinfo_data_eq]
  have hr : rescanIfStale { env with gpu := g } s = rescanIfStale env s := rfl
  rw [hr]
  have hn' : (rescanIfStale env s).nvml = false := (rescan_nvml env s).trans hn
  simp only [hn', gpuFieldsNext_false]

theorem runMessages_gpu_env_irrelevant (f : Option GpuDevice → Option GpuDevice) :
    ∀ (msgs : List Message) (s : SysInfo), s.nvml = false →
      runMessages (msgs.map (setGpuEnv f)) s = runMessages msgs s := by
  intro msgs
  induction msgs with
  | nil => intro s _; rfl
  | cons m ms ih =>
    intro s hn
    simp only [List.map_cons, runMessages]
    have hstep : SysInfo.update (setGpuEnv f m) s = SysInfo.update m s := by
      cases m with
      | tick env => exact update_tick_gpu_env_irrelevant env (f env.gpu) s hn
      | toggleIncludeSwapWithRam value => rfl
    rw [hstep]
    rcases hm : SysInfo.update m s with _ | s1
    · rfl
    · have hn1 : s1.nvml = false := ((update_message_fields m s s1 hm).2.1).trans hn
      exact ih s1 hn1


/-! ### Claims -/

/-- C1: the code does not implement the fallback the contract requires.
With total memory reported as zero (and, with the swap toggle on, total
swap also zero) the `ram_usage` computation is a `u64` division by zero
— a Rust panic, modelled as `none` — and not the defined fallback
`some 0`. -/
theorem ramUsage_zero_total_panics :
    ∀ used_memory used_swap : Nat,
      ramUsageCalc false used_memory 0 used_swap 0 = none ∧
      ramUsageCalc true used_memory 0 used_swap 0 = none := by
  intro u us
  constructor <;> simp [ramUsageCalc, u64Mod]

/-- C2: an interface name listed in both `include_interfaces` and
`exclude_interfaces` is absent from the catalog `get_physical_interfaces`
produces: the exclude filter runs last and wins. -/
theorem exclude_overrides_include (netDir : Option (List NetDirEntry))
    (config : SysInfoConfig) (included excluded : List String) (name : String)
    (_hinc : config.include_interfaces = some included)
    (hexc : config.exclude_interfaces = some excluded)
    (_h1 : name ∈ included) (h2 : name ∈ excluded) :
    name ∉ get_physical_interfaces netDir config := by
  intro hmem
  unfold get_physical_interfaces at hmem
  rw [hexc] at hmem
  have hkeep := (List.mem_filter.mp hmem).2
  simp at hkeep
  exact hkeep h2

/-- C2 witness: `"eth0"`, listed in both filters, is not in the catalog
built from a directory listing that contains it. -/
theorem exclude_overrides_include_witness :
    "eth0" ∉ get_physical_interfaces
      (some [⟨"eth0", true⟩, ⟨"wlan0", true⟩])
      ⟨some ["eth0"], some ["eth0"], false⟩ :=
  exclude_overrides_include (some [⟨"eth0", true⟩, ⟨"wlan0", true⟩])
    ⟨some ["eth0"], some ["eth0"], false⟩ ["eth0"] ["eth0"] "eth0"
    rfl rfl (by decide) (by decide)

/-- C9: when `/sys/class/net` cannot be read, discovery returns the
empty catalog under every configuration, and the network loop over an
empty catalog contributes zero upload and download bytes. -/
theorem unreadable_netdir_empty :
    (∀ config : SysInfoConfig, get_physical_interfaces none config = []) ∧
    (∀ networks : List (String × NetworkData), sumNetworkBytes [] networks = (0, 0)) := by
  constructor
  · intro config
    unfold get_physical_interfaces
    rcases config with ⟨inc, exc, t⟩
    cases inc <;> cases exc <;> simp
  · intro networks
    induction networks with
    | nil => rfl
    | cons p ps ih => exact ih

/-- C5: on the sensor label list `["Tctl", "Core 0", "acpitz"]` the
component search selects the `"Tctl"` component (case-insensitive
substring match against k10temp/coretemp/cpu/tctl) and reports its
temperature; and when no label matches any candidate, the CPU
temperature is `none`. -/
theorem thermal_first_match :
    (∀ t1 t2 t3 : Option ℚ,
      ([⟨"Tctl", t1⟩, ⟨"Core 0", t2⟩, ⟨"acpitz", t3⟩] : List Component).find?
          (fun c => cpuSensorMatch c.label) = some ⟨"Tctl", t1⟩ ∧
      cpuTempFrom [⟨"Tctl", t1⟩, ⟨"Core 0", t2⟩, ⟨"acpitz", t3⟩] = t1) ∧
    (∀ components : List Component,
      (∀ c ∈ components, cpuSensorMatch c.label = false) →
        cpuTempFrom components = none) := by
  constructor
  · intro t1 t2 t3
    have hfind : ([⟨"Tctl", t1⟩, ⟨"Core 0", t2⟩, ⟨"acpitz", t3⟩] : List Component).find?
        (fun c => cpuSensorMatch c.label) = some ⟨"Tctl", t1⟩ :=
      List.find?_cons_of_pos _ rfl
    exact ⟨hfind, by unfold cpuTempFrom; rw [hfind]; rfl⟩
  · intro components h
    unfold cpuTempFrom
    rw [List.find?_eq_none.mpr (fun c hc => by simp [h c hc])]
    rfl

/-- C5 witness: concrete instances of both parts. -/
theorem thermal_first_match_witness :
    cpuTempFrom [⟨"Tctl", some 42⟩, ⟨"Core 0", some 30⟩, ⟨"acpitz", some 20⟩] = some 42 ∧
    cpuTempFrom [⟨"acpitz", some 20⟩] = none :=
  ⟨(thermal_first_match.1 (some 42) (some 30) (some 20)).2,
   thermal_first_match.2 [⟨"acpitz", some 20⟩] (by decide)⟩


/-- C3 counterexample: with the swap toggle on and `u64`-representable
counters satisfying the claim's hypotheses (`total_memory > 0`,
`used ≤ total` on both memory and swap), the wrap-around of
`total_memory + total_swap` past `2 ^ 64` makes the computed percentage
`18446744073709551516`, far outside `[0, 100]`. -/
theorem ramUsage_wrap_out_of_range :
    0 < (2 ^ 63 : Nat) ∧ (2 ^ 63 : Nat) ≤ 2 ^ 63 ∧ (2 ^ 63 - 1 : Nat) ≤ 2 ^ 63 + 1 ∧
    ramUsageCalc true (2 ^ 63) (2 ^ 63) (2 ^ 63 - 1) (2 ^ 63 + 1) =
      some 18446744073709551516 ∧
    ¬ (18446744073709551516 : Nat) ≤ 100 := by
  refine ⟨by norm_num, le_refl _, by norm_num, by decide, by norm_num⟩

/-- C3 (amended): with `total_memory > 0`, `used_memory ≤ total_memory`,
`used_swap ≤ total_swap`, and — when the swap toggle is on — no `u64`
overflow of `total_memory + total_swap`, the RAM percentage is computed
(no division-by-zero panic) and lies in `[0, 100]`. -/
theorem ramUsage_in_range (include_swap_in_ram : Bool)
    (used_memory total_memory used_swap total_swap : Nat)
    (hpos : 0 < total_memory)
    (hmem : used_memory ≤ total_memory)
    (hswap : used_swap ≤ total_swap)
    (hover : include_swap_in_ram = true → total_memory + total_swap < u64Mod) :
    ∃ v, ramUsageCalc include_swap_in_ram used_memory total_memory used_swap total_swap
        = some v ∧ v ≤ 100 := by
  cases include_swap_in_ram with
  | false =>
    refine ⟨used_memory * 100 % u64Mod / total_memory, ?_, ?_⟩
    · simp [ramUsageCalc, Nat.pos_iff_ne_zero.mp hpos]
    · have h1 : used_memory * 100 % u64Mod ≤ total_memory * 100 :=
        le_trans (Nat.mod_le _ _) (Nat.mul_le_mul_right 100 hmem)
      have h2 : used_memory * 100 % u64Mod / total_memory ≤ total_memory * 100 / total_memory :=
        Nat.div_le_div_right h1
      rwa [Nat.mul_div_cancel_left 100 hpos] at h2
  | true =>
    have hlt : total_memory + total_swap < u64Mod := hover rfl
    have hden : (total_memory + total_swap) % u64Mod = total_memory + total_swap :=
      Nat.mod_eq_of_lt hlt
    have hden0 : ¬ (total_memory + total_swap) % u64Mod = 0 := by
      rw [hden]; omega
    refine ⟨((used_memory + used_swap) % u64Mod) * 100 % u64Mod
        / ((total_memory + total_swap) % u64Mod), ?_, ?_⟩
    · simp [ramUsageCalc, hden0]
    · have h1 : ((used_memory + used_swap) % u64Mod) * 100 % u64Mod
          ≤ (total_memory + total_swap) * 100 :=
        le_trans (Nat.mod_le _ _)
          (Nat.mul_le_mul_right 100 (le_trans (Nat.mod_le _ _) (Nat.add_le_add hmem hswap)))
      rw [hden]
      have h2 := Nat.div_le_div_right (c := total_memory + total_swap) h1
      rwa [Nat.mul_div_cancel_left 100 (by omega)] at h2

/-- C3 witness: a concrete instance of the amended theorem. -/
theorem ramUsage_in_range_witness :
    ∃ v, ramUsageCalc true 1 2 1 2 = some v ∧ v ≤ 100 :=
  ramUsage_in_range true 1 2 1 2 (by decide) (by decide) (by decide) (fun _ => by decide)

/-- `get_ups_temp` on a successfully spawned command, unfolded. -/
theorem get_ups_temp_some (o : CmdOutput) :
    get_ups_temp (some o) =
      match (rustLines o.stdout).find? (fun line => strContains line "ups.temperature") with
      | some line =>
        match (splitOnChar ':' line.data).get? 1 with
        | some v => rustTrim (String.mk v)
        | none => rustTrim "N/A"
      | none => "N/A" := rfl

/-- C6 counterexample: `Command::output()` is `Ok` even for a non-zero
exit status, and the code never consults the status — a failing `upsc`
whose stdout still contains the key yields `"30"`, not `"N/A"`.  And the
value returned is the field between the first and second colons, not all
text after the first colon: `"ups.temperature: 25:5"` yields `"25"`,
not `"25:5"`. -/
theorem ups_temp_cex :
    get_ups_temp (some ⟨1, "ups.temperature: 30\n"⟩) = "30" ∧
    ("30" : String) ≠ "N/A" ∧
    get_ups_temp (some ⟨0, "ups.temperature: 25:5\n"⟩) = "25" ∧
    ("25" : String) ≠ "25:5" := by
  refine ⟨by decide, by decide, by decide, by decide⟩

/-- C6 (amended): the UPS temperature is `"N/A"` exactly when the
command cannot be spawned, when no stdout line contains
`"ups.temperature"`, or when the first such line has no second
colon-separated field; otherwise it is that second field, trimmed.
The exit status is never consulted. -/
theorem ups_temp_spec :
    get_ups_temp none = "N/A" ∧
    (∀ (st st' : Int) (out : String),
      get_ups_temp (some ⟨st, out⟩) = get_ups_temp (some ⟨st', out⟩)) ∧
    (∀ o : CmdOutput,
      (rustLines o.stdout).find? (fun line => strContains line "ups.temperature") = none →
        get_ups_temp (some o) = "N/A") ∧
    (∀ (o : CmdOutput) (line : String) (v : List Char),
      (rustLines o.stdout).find? (fun line => strContains line "ups.temperature")
          = some line →
      (splitOnChar ':' line.data).get? 1 = some v →
        get_ups_temp (some o) = rustTrim (String.mk v)) ∧
    (∀ (o : CmdOutput) (line : String),
      (rustLines o.stdout).find? (fun line => strContains line "ups.temperature")
          = some line →
      (splitOnChar ':' line.data).get? 1 = none →
        get_ups_temp (some o) = "N/A") := by
  refine ⟨rfl, fun st st' out => rfl, ?_, ?_, ?_⟩
  · intro o hfind
    rw [get_ups_temp_some, hfind]
  · intro o line v hfind hv
    rw [get_ups_temp_some, hfind]
    dsimp only
    rw [hv]
  · intro o line hfind hv
    rw [get_ups_temp_some, hfind]
    dsimp only
    rw [hv]
    rfl

/-- C6 witness: concrete instances of the `"N/A"` and value branches of
the amended theorem. -/
theorem ups_temp_spec_witness :
    get_ups_temp (some ⟨0, "battery.charge: 100\n"⟩) = "N/A" ∧
    get_ups_temp (some ⟨0, "ups.temperature: 21.5\n"⟩) = rustTrim (String.mk " 21.5".data) :=
  ⟨ups_temp_spec.2.2.1 ⟨0, "battery.charge: 100\n"⟩ (by decide),
   ups_temp_spec.2.2.2.1 ⟨0, "ups.temperature: 21.5\n"⟩ "ups.temperature: 21.5"
     " 21.5".data (by decide) (by decide)⟩


/-! ### Concrete sample inputs used by witnesses and counterexamples -/

/-- A small configuration: no filters, swap toggle off. -/
def sampleConfig : SysInfoConfig :=
  { include_interfaces := none, exclude_interfaces := none, include_swap_in_ram := false }

/-- An environment with one physical interface and plain counters. -/
def sampleEnv : Env :=
  { now := 0
    mem := { used_memory := 50, total_memory := 100, used_swap := 10, total_swap := 100 }
    cpuUsage := 0
    components := []
    networks := [("eth0", ⟨3000000, 1000000⟩)]
    netDir := some [⟨"eth0", true⟩]
    upsOutput := none
    gpu := none
    nvmlInitOk := false }

/-- The state right after startup on `sampleEnv`. -/
def sampleState : SysInfo := SysInfo.init sampleConfig true sampleEnv

/-- An environment whose swap readings differ from `sampleEnv`'s. -/
def swapEnv : Env :=
  { now := 0
    mem := { used_memory := 0, total_memory := 100, used_swap := 50, total_swap := 100 }
    cpuUsage := 0
    components := []
    networks := []
    netDir := none
    upsOutput := none
    gpu := none
    nvmlInitOk := false }

/-- C4 counterexample: two catalog interfaces whose transmitted counters
sum to `2 ^ 64` wrap the `u64` accumulator to `0`, so the published
value is `0 / 1 000 000`, not the true sum divided by `1 000 000`. -/
theorem network_sum_wrap :
    sumNetworkBytes ["eth0", "eth1"] [("eth0", ⟨2 ^ 63, 0⟩), ("eth1", ⟨2 ^ 63, 0⟩)] = (0, 0) ∧
    catalogTransmitted ["eth0", "eth1"] [("eth0", ⟨2 ^ 63, 0⟩), ("eth1", ⟨2 ^ 63, 0⟩)] = 2 ^ 64 ∧
    ((0 : ℚ) / 1000000 ≠ ((2 ^ 64 : Nat) : ℚ) / 1000000) := by
  refine ⟨by decide, by decide, ?_⟩
  push_cast
  norm_num

/-- C4 (amended): on every successful cycle the published upload
(download) value is the `u64` wrapping sum — the true sum reduced
modulo `2 ^ 64` — of the transmitted (received) counters of exactly the
interfaces in the current catalog (the catalog after the staleness
rescan), divided by `1 000 000`; interfaces outside the catalog
contribute nothing (they are filtered out of the sum). -/
theorem network_speed_catalog_sum (env : Env) (s s' : SysInfo)
    (h : update_sysinfo_data env s = some s') :
    s'.upload_speed =
      ((catalogTransmitted (rescanIfStale env s).physical_interfaces env.networks
          % u64Mod : Nat) : ℚ) / 1000000 ∧
    s'.download_speed =
      ((catalogReceived (rescanIfStale env s).physical_interfaces env.networks
          % u64Mod : Nat) : ℚ) / 1000000 := by
  rw [update_sysinfo_data_eq, Option.map_eq_some'] at h
  obtain ⟨ram, hcalc, hs'⟩ := h
  subst hs'
  dsimp only
  rw [sumNetworkBytes_eq]
  exact ⟨rfl, rfl⟩

/-- C4 witness: the amended theorem applied at a concrete cycle. -/
theorem network_speed_catalog_sum_witness :
    ((update_sysinfo_data sampleEnv sampleState).getD sampleState).upload_speed =
      ((catalogTransmitted (rescanIfStale sampleEnv sampleState).physical_interfaces
          sampleEnv.networks % u64Mod : Nat) : ℚ) / 1000000 ∧
    ((update_sysinfo_data sampleEnv sampleState).getD sampleState).download_speed =
      ((catalogReceived (rescanIfStale sampleEnv sampleState).physical_interfaces
          sampleEnv.networks % u64Mod : Nat) : ℚ) / 1000000 :=
  network_speed_catalog_sum sampleEnv sampleState
    ((update_sysinfo_data sampleEnv sampleState).getD sampleState) rfl

/-- C7 counterexample: start with the swap toggle off (so swap counters
are never refreshed and read `0`), toggle it on, and run the very next
cycle in an environment reporting `used_swap = 50, total_swap = 100`.
The code computes `(0 + 0) * 100 / (100 + 0) = 0` from the stale
(never-refreshed) swap counters; computing from the current counters as
the claim states would give `(0 + 50) * 100 / (100 + 100) = 25`. -/
theorem toggle_stale_swap :
    (runMessages [.toggleIncludeSwapWithRam true, .tick swapEnv]
        (SysInfo.init ⟨none, none, false⟩ true swapEnv)).map (fun s => s.ram_usage)
      = some 0 ∧
    ramUsageCalc true swapEnv.mem.used_memory swapEnv.mem.total_memory
        swapEnv.mem.used_swap swapEnv.mem.total_swap = some 25 ∧
    (0 : Nat) ≠ 25 := by
  refine ⟨by decide, by decide, by decide⟩

/-- C7 (amended): the cycle right after a toggle uses the formula
selected by the new toggle value, with freshly refreshed RAM counters —
but the swap counters it reads are the ones already held by the
`sysinfo` handle (last refreshed at initialization, `0` if never),
not current values. -/
theorem toggle_selects_new_counters (s : SysInfo) (value : Bool) (env : Env)
    (s1 s2 : SysInfo)
    (hch : s.config_handler = true)
    (h1 : SysInfo.update (.toggleIncludeSwapWithRam value) s = some s1)
    (h2 : SysInfo.update (.tick env) s1 = some s2) :
    some s2.ram_usage =
      ramUsageCalc value env.mem.used_memory env.mem.total_memory
        s.system.used_swap s.system.total_swap := by
  simp only [SysInfo.update, hch, if_true, Option.some.injEq] at h1
  subst h1
  simp only [SysInfo.update] at h2
  rw [update_sysinfo_data_eq, Option.map_eq_some'] at h2
  obtain ⟨ram, hcalc, hs2⟩ := h2
  subst hs2
  dsimp only
  rw [← hcalc]
  congr 1
  · exact congrArg SysInfoConfig.include_swap_in_ram (rescan_config env _)
  · exact congrArg System.used_swap (rescan_system env _)
  · exact congrArg System.total_swap (rescan_system env _)

/-- C7 witness: the amended theorem applied at a concrete toggle-then-tick. -/
theorem toggle_selects_new_counters_witness :
    some (((SysInfo.update (.tick swapEnv)
        ((SysInfo.update (.toggleIncludeSwapWithRam true) sampleState).getD sampleState)).getD
          sampleState).ram_usage) =
      ramUsageCalc true swapEnv.mem.used_memory swapEnv.mem.total_memory
        sampleState.system.used_swap sampleState.system.total_swap :=
  toggle_selects_new_counters sampleState true swapEnv
    ((SysInfo.update (.toggleIncludeSwapWithRam true) sampleState).getD sampleState)
    ((SysInfo.update (.tick swapEnv)
        ((SysInfo.update (.toggleIncludeSwapWithRam true) sampleState).getD sampleState)).getD
          sampleState)
    rfl rfl rfl

/-- C8: when `Nvml::init()` fails at startup, every run of the
message loop keeps all four GPU fields at the `none` sentinel and keeps
the handle absent, and the run never observes the GPU environment at
all: replacing the GPU readings of every cycle yields the very same
final state. -/
theorem gpu_disabled_forever (config : SysInfoConfig) (ch : Bool) (env0 : Env)
    (msgs : List Message) (s' : SysInfo)
    (hfail : env0.nvmlInitOk = false)
    (hrun : runMessages msgs (SysInfo.init config ch env0) = some s') :
    (s'.nvml = false ∧ s'.gpu_load = none ∧ s'.gpu_temp = none ∧
      s'.gpu_vram_used = none ∧ s'.gpu_vram_total = none) ∧
    ∀ f : Option GpuDevice → Option GpuDevice,
      runMessages (msgs.map (setGpuEnv f)) (SysInfo.init config ch env0) = some s' := by
  have hinit : (SysInfo.init config ch env0).nvml = false := hfail
  obtain ⟨q1, q2, q3, q4⟩ := runMessages_gpu_quiet msgs _ s' hinit hrun
  have hn : s'.nvml = false := ((runMessages_fields msgs _ s' hrun).2.1).trans hinit
  refine ⟨⟨hn, q1, q2, q3, q4⟩, ?_⟩
  intro f
  rw [runMessages_gpu_env_irrelevant f msgs _ hinit]
  exact hrun

/-- C8 witness: one tick after a failed GPU initialization. -/
theorem gpu_disabled_forever_witness :
    (((runMessages [.tick swapEnv] (SysInfo.init sampleConfig true swapEnv)).getD
          sampleState).nvml = false ∧
      ((runMessages [.tick swapEnv] (SysInfo.init sampleConfig true swapEnv)).getD
          sampleState).gpu_load = none ∧
      ((runMessages [.tick swapEnv] (SysInfo.init sampleConfig true swapEnv)).getD
          sampleState).gpu_temp = none ∧
      ((runMessages [.tick swapEnv] (SysInfo.init sampleConfig true swapEnv)).getD
          sampleState).gpu_vram_used = none ∧
      ((runMessages [.tick swapEnv] (SysInfo.init sampleConfig true swapEnv)).getD
          sampleState).gpu_vram_total = none) ∧
    ∀ f : Option GpuDevice → Option GpuDevice,
      runMessages ([Message.tick swapEnv].map (setGpuEnv f))
          (SysInfo.init sampleConfig true swapEnv) =
        some ((runMessages [.tick swapEnv] (SysInfo.init sampleConfig true swapEnv)).getD
          sampleState) :=
  gpu_disabled_forever sampleConfig true swapEnv [.tick swapEnv]
    ((runMessages [.tick swapEnv] (SysInfo.init sampleConfig true swapEnv)).getD sampleState)
    rfl rfl

/-- C10: the per-cycle refresh requests only RAM counters and CPU usage
(no swap), so after any run the swap counters held by the handle are
exactly the ones captured at initialization — the startup readings when
the toggle was on at startup, `0` (never read) otherwise. -/
theorem swap_read_only_at_init :
    (updateRefreshKind.memory.ram = true ∧ updateRefreshKind.memory.swap = false ∧
      updateRefreshKind.cpu.cpu_usage = true) ∧
    ∀ (config : SysInfoConfig) (ch : Bool) (env0 : Env) (msgs : List Message) (s' : SysInfo),
      runMessages msgs (SysInfo.init config ch env0) = some s' →
        s'.system.used_swap =
          (if config.include_swap_in_ram then env0.mem.used_swap else 0) ∧
        s'.system.total_swap =
          (if config.include_swap_in_ram then env0.mem.total_swap else 0) := by
  refine ⟨⟨rfl, rfl, rfl⟩, ?_⟩
  intro config ch env0 msgs s' hrun
  obtain ⟨_, _, h1, h2⟩ := runMessages_fields msgs _ s' hrun
  rw [h1, h2]
  constructor <;>
  · show (if (init_memory_config config.include_swap_in_ram).swap then _ else _) = _
    cases config.include_swap_in_ram <;> rfl

/-- C10 witness: a concrete run with the toggle off at startup. -/
theorem swap_read_only_at_init_witness :
    ((runMessages [.tick swapEnv] (SysInfo.init sampleConfig true sampleEnv)).getD
        sampleState).system.used_swap =
      (if sampleConfig.include_swap_in_ram then sampleEnv.mem.used_swap else 0) ∧
    ((runMessages [.tick swapEnv] (SysInfo.init sampleConfig true sampleEnv)).getD
        sampleState).system.total_swap =
      (if sampleConfig.include_swap_in_ram then sampleEnv.mem.total_swap else 0) :=
  swap_read_only_at_init.2 sampleConfig true sampleEnv [.tick swapEnv]
    ((runMessages [.tick swapEnv] (SysInfo.init sampleConfig true sampleEnv)).getD sampleState)
    rfl

end Applet
